import Mathlib

/-!
Shallow embedding of the `min_gl` library (src/src/lib.rs): a thin wrapper
around GLFW (windowing/input) and a generated OpenGL loader.

Every call into the external libraries is modelled as an entry of an
explicit trace of `Effect`s, in the order the Rust code performs them.
Fallible code (`expect`, `panic!`, debug-mode arithmetic overflow) is
modelled with `Except String`; the `.error` constructor stands for process
termination with the given panic message — Rust's `Display::new` returns
`Self`, so in the model every non-`.ok` outcome is a fatal abort, never a
recoverable error value.  Machine integers (u32/i32) are `Nat`/`Int` with
explicit reduction modulo 2^32 where Rust casts or wraps.
-/

/-- A GLFW window event.  The wrapper treats events opaquely (it only
forwards them to the handler), so an abstract tag is a faithful model. -/
structure WindowEvent where
  tag : Nat
  deriving DecidableEq

/-- Rust `u32 as i32`: reinterpret the low 32 bits as two's complement. -/
def toI32 (n : Nat) : Int :=
  if n % 2 ^ 32 < 2 ^ 31 then ((n % 2 ^ 32 : Nat) : Int)
  else ((n % 2 ^ 32 : Nat) : Int) - 2 ^ 32

/-- Rust `i32` division by 2: truncation toward zero. -/
def i32div2 (x : Int) : Int :=
  if 0 ≤ x then ((x.toNat / 2 : Nat) : Int) else -(((-x).toNat / 2 : Nat) : Int)

/-- Rust u32 subtraction `a - b`: panics on underflow when compiled with
debug assertions, wraps modulo 2^32 in release builds. -/
def subU32 (debug : Bool) (a b : Nat) : Except String Nat :=
  if b ≤ a then .ok (a - b)
  else if debug then .error "attempt to subtract with overflow"
  else .ok ((a + 2 ^ 32 - b) % 2 ^ 32)

/-- `Options` (src/src/lib.rs:16-38): plain configuration record. -/
structure Options where
  width : Nat
  height : Nat
  title : String
  fullscreen : Bool
  decorated : Bool
  msaa : Option Nat
  vsync : Bool
  deriving DecidableEq

/-- `glfw::OpenGlProfileHint`. -/
inductive OpenGlProfileHint where
  | Core
  | Compat
  | AnyProfile
  deriving DecidableEq

/-- The `glfw::WindowHint` variants the wrapper uses. -/
inductive WindowHint where
  | Resizable (b : Bool)
  | Decorated (b : Bool)
  | Samples (n : Option Nat)
  | ContextVersion (major minor : Nat)
  | OpenGlForwardCompat (b : Bool)
  | OpenGlProfile (p : OpenGlProfileHint)
  | OpenGlDebugContext (b : Bool)
  deriving DecidableEq

/-- `glfw::WindowMode`: fullscreen on the primary monitor, or windowed. -/
inductive WindowMode where
  | FullScreen
  | Windowed
  deriving DecidableEq

/-- The GL clear-mask bit the wrapper uses (`gl::COLOR_BUFFER_BIT`). -/
inductive ClearMask where
  | colorBufferBit
  deriving DecidableEq

/-- The GL capability the wrapper toggles (`gl::MULTISAMPLE`). -/
inductive GlCapability where
  | multisample
  deriving DecidableEq

/-- One call into GLFW or GL, as performed by the wrapper.  Cursor
coordinates are `ℚ`: the Rust code passes `width as f64 / 2.0`, which is
exact for every u32 width (u32 values are below 2^53 and halving a finite
double is exact), so the rational value is a faithful model. -/
inductive Effect where
  | glfwInit
  | fetchPrimaryMonitor
  | defaultWindowHints
  | windowHint (h : WindowHint)
  | createWindow (width height : Nat) (title : String) (mode : WindowMode)
  | getVideoMode
  | setPos (x y : Int)
  | setCursorPos (x y : ℚ)
  | setAllPolling (b : Bool)
  | makeCurrent
  | loadGl
  | setSwapInterval (interval : Nat)
  | viewport (x y width height : Int)
  | glEnable (c : GlCapability)
  | glDisable (c : GlCapability)
  | swapBuffers
  | glClear (mask : ClearMask)
  | pollEvents
  | handlerCall (e : WindowEvent)
  deriving DecidableEq

/-- A monitor video mode (`glfw::VidMode`); only the pixel size is used. -/
structure VidMode where
  width : Nat
  height : Nat
  deriving DecidableEq

/-- A monitor (`glfw::Monitor`); `get_video_mode` may return nothing. -/
structure Monitor where
  vidmode : Option VidMode
  deriving DecidableEq

/-- The platform environment `Display::new` runs against: which fallible
GLFW calls succeed. -/
structure GlfwEnv where
  initOk : Bool
  primaryMonitor : Option Monitor
  createWindowOk : Bool
  deriving DecidableEq

/-- `Options::config` (src/src/lib.rs:41-52): the window hints applied to
the global GLFW state, in call order.  `debug` is `cfg(debug_assertions)`:
the `OpenGlDebugContext` hint is compiled in only for debug builds. -/
def Options.config (opt : Options) (debug : Bool) : List Effect :=
  [Effect.defaultWindowHints,
   Effect.windowHint (WindowHint.Resizable false),
   Effect.windowHint (WindowHint.Decorated opt.decorated),
   Effect.windowHint (WindowHint.Samples opt.msaa),
   Effect.windowHint (WindowHint.ContextVersion 4 6),
   Effect.windowHint (WindowHint.OpenGlForwardCompat true),
   Effect.windowHint (WindowHint.OpenGlProfile OpenGlProfileHint.Core)]
  ++ (if debug then [Effect.windowHint (WindowHint.OpenGlDebugContext true)] else [])

/-- `Options::create` (src/src/lib.rs:54-76): the trace of window calls, or
the panic message of the first failing step.  Order of fallible steps
follows the Rust code: `create_window(...).expect`, then
`get_video_mode().expect`, then the two u32 subtractions feeding `set_pos`
(x before y, each `(vidmode.dim - self.dim) as i32 / 2`). -/
def Options.create (opt : Options) (debug : Bool) (env : GlfwEnv)
    (monitor : Monitor) : Except String (List Effect) :=
  if env.createWindowOk then
    match monitor.vidmode with
    | some vm =>
      match subU32 debug vm.width opt.width with
      | .error e => .error e
      | .ok dx =>
        match subU32 debug vm.height opt.height with
        | .error e => .error e
        | .ok dy =>
          .ok [Effect.createWindow opt.width opt.height opt.title
                 (if opt.fullscreen then WindowMode.FullScreen else WindowMode.Windowed),
               Effect.getVideoMode,
               Effect.setPos (i32div2 (toI32 dx)) (i32div2 (toI32 dy)),
               Effect.setCursorPos ((opt.width : ℚ) / 2) ((opt.height : ℚ) / 2)]
    | none => .error "Could not get the vidmode of the monitor!"
  else .error "Could not create the window!"

/-- `Options::config_context` (src/src/lib.rs:78-85): swap interval
(`self.vsync as u32`: 1 for true, 0 for false), viewport over the window's
pixel size (each dimension cast `as i32`), and the multisample toggle. -/
def Options.config_context (opt : Options) : List Effect :=
  [Effect.setSwapInterval (if opt.vsync then 1 else 0),
   Effect.viewport 0 0 (toI32 opt.width) (toI32 opt.height),
   match opt.msaa with
   | some _ => Effect.glEnable GlCapability.multisample
   | none => Effect.glDisable GlCapability.multisample]

/-- `Display` (src/src/lib.rs:89-96) owns the window, the handler closure
and the receive end of the event channel.  Only the queued events bear on
the claims; handler invocations appear in traces as `handlerCall`. -/
structure Display where
  queue : List WindowEvent
  deriving DecidableEq

/-- `Display::new` (src/src/lib.rs:113-132): the trace of calls performed
in order, or the panic message.  The event receiver returned by
`create_window` starts empty. -/
def Display.new (opt : Options) (debug : Bool) (env : GlfwEnv) :
    Except String (Display × List Effect) :=
  if env.initOk then
    match env.primaryMonitor with
    | some monitor =>
      match opt.create debug env monitor with
      | .error e => .error e
      | .ok createTrace =>
        .ok (⟨[]⟩,
          [Effect.glfwInit, Effect.fetchPrimaryMonitor]
          ++ opt.config debug
          ++ createTrace
          ++ [Effect.setAllPolling true, Effect.makeCurrent, Effect.loadGl]
          ++ opt.config_context)
    | none => .error "Could not get the primary monitor!"
  else .error "Could not initialize the GLFW!"

/-- `glfw::flush_messages` (a `Receiver::try_iter` walk): drains the queued
events in arrival order, calling the handler on each; returns the handler
calls and whatever is left in the queue. -/
def flushMessages : List WindowEvent → List Effect × List WindowEvent
  | [] => ([], [])
  | e :: rest =>
    let (calls, leftover) := flushMessages rest
    (Effect.handlerCall e :: calls, leftover)

/-- `Glfw::poll_events`: publishes the pending OS window/input events into
the channel, after those already queued. -/
def Glfw.pollEvents (queue pending : List WindowEvent) : List WindowEvent :=
  queue ++ pending

/-- `Display::update` (src/src/lib.rs:141-147): polls events, then flushes
the queue through the handler.  `pending` are the OS events that
`poll_events` publishes during this call; the returned trace is the poll
followed by the handler invocations. -/
def Display.update (d : Display) (pending : List WindowEvent) :
    Display × List Effect :=
  let q := Glfw.pollEvents d.queue pending
  let (calls, leftover) := flushMessages q
  (⟨leftover⟩, Effect.pollEvents :: calls)

/-- `Display::render` (src/src/lib.rs:136-139): swap the buffers, then
clear the color buffer.  The display state (in particular the queue) is
untouched. -/
def Display.render (d : Display) : Display × List Effect :=
  (d, [Effect.swapBuffers, Effect.glClear ClearMask.colorBufferBit])

/-- The events a trace delivers to the user handler, in order. -/
def deliveredEvents (t : List Effect) : List WindowEvent :=
  t.filterMap fun e =>
    match e with
    | Effect.handlerCall ev => some ev
    | _ => none

/-! ### Helper lemmas -/

theorem flushMessages_eq (q : List WindowEvent) :
    flushMessages q = (q.map Effect.handlerCall, []) := by
  induction q with
  | nil => rfl
  | cons e rest ih => simp [flushMessages, ih]

theorem deliveredEvents_map (l : List WindowEvent) :
    deliveredEvents (l.map Effect.handlerCall) = l := by
  induction l with
  | nil => rfl
  | cons e rest ih => simp [deliveredEvents] at ih ⊢; exact ih

theorem toI32_of_lt {n : Nat} (h : n < 2 ^ 31) : toI32 n = (n : Int) := by
  have h32 : n < 2 ^ 32 := lt_of_lt_of_le h (by norm_num)
  unfold toI32
  rw [Nat.mod_eq_of_lt h32, if_pos h]

theorem i32div2_natCast (n : Nat) : i32div2 (n : Int) = ((n / 2 : Nat) : Int) := by
  simp [i32div2, Int.toNat_ofNat]

theorem i32div2_toI32_of_lt {n : Nat} (h : n < 2 ^ 31) :
    i32div2 (toI32 n) = ((n / 2 : Nat) : Int) := by
  rw [toI32_of_lt h, i32div2_natCast]

theorem subU32_of_le {a b : Nat} (debug : Bool) (h : b ≤ a) :
    subU32 debug a b = .ok (a - b) := by
  simp [subU32, h]

theorem subU32_error_msg {debug : Bool} {a b : Nat} {e : String}
    (h : subU32 debug a b = .error e) : e = "attempt to subtract with overflow" := by
  by_cases hle : b ≤ a <;> simp [subU32, hle] at h
  · cases debug <;> simp_all

/-! ### Claim theorems -/

/-- Claim C1: `update()` first polls pending window/input events and then
delivers each queued event — those already queued followed by those the
poll published — to the handler synchronously, exactly once, in FIFO
order: the trace is the poll followed by one handler call per queued
event, and the delivered sequence equals the queued sequence (so no event
is skipped or delivered twice). -/
theorem update_polls_then_delivers_fifo_exactly_once
    (d : Display) (pending : List WindowEvent) :
    (d.update pending).2
      = Effect.pollEvents :: (Glfw.pollEvents d.queue pending).map Effect.handlerCall
    ∧ deliveredEvents ((d.update pending).2) = d.queue ++ pending := by
  refine ⟨?_, ?_⟩
  · simp [Display.update, flushMessages_eq]
  · simp only [Display.update, flushMessages_eq, Glfw.pollEvents]
    simp only [deliveredEvents, List.filterMap_cons]
    exact deliveredEvents_map (d.queue ++ pending)

/-- Claim C7: `render()` first swaps the front/back buffers and then
clears the color buffer; it performs no other GL or window operation (its
trace is exactly those two calls) and leaves the display state, in
particular the event queue, untouched. -/
theorem render_swaps_then_clears_only (d : Display) :
    d.render = (d, [Effect.swapBuffers, Effect.glClear ClearMask.colorBufferBit]) := rfl

/-- Claim C8: a `render()` call followed by an `update()` call leaves no
stale events: after `update()` returns, the receiver holds no undelivered
events, regardless of how many events were queued beforehand. -/
theorem render_then_update_drains_queue (d : Display) (pending : List WindowEvent) :
    ((d.render).1.update pending).1.queue = [] := by
  simp [Display.render, Display.update, flushMessages_eq]

/-- Claim C5: for every `Options`, `config` applies exactly these hints to
the global windowing state, in order: reset to defaults, non-resizable,
decorated per the flag, samples per the msaa field, context version 4.6,
forward-compatible, core profile — and a debug context exactly when
compiled with debug assertions (and nothing else in release builds). -/
theorem config_applies_exactly_these_hints (opt : Options) :
    opt.config true
      = [Effect.defaultWindowHints,
         Effect.windowHint (WindowHint.Resizable false),
         Effect.windowHint (WindowHint.Decorated opt.decorated),
         Effect.windowHint (WindowHint.Samples opt.msaa),
         Effect.windowHint (WindowHint.ContextVersion 4 6),
         Effect.windowHint (WindowHint.OpenGlForwardCompat true),
         Effect.windowHint (WindowHint.OpenGlProfile OpenGlProfileHint.Core),
         Effect.windowHint (WindowHint.OpenGlDebugContext true)]
    ∧ opt.config false
      = [Effect.defaultWindowHints,
         Effect.windowHint (WindowHint.Resizable false),
         Effect.windowHint (WindowHint.Decorated opt.decorated),
         Effect.windowHint (WindowHint.Samples opt.msaa),
         Effect.windowHint (WindowHint.ContextVersion 4 6),
         Effect.windowHint (WindowHint.OpenGlForwardCompat true),
         Effect.windowHint (WindowHint.OpenGlProfile OpenGlProfileHint.Core)] :=
  ⟨rfl, rfl⟩

/-- Claim C4: `config_context` sets the swap interval to 1 when vsync is
true and 0 when it is false, sets the GL viewport to the window's pixel
size, and enables multisampling iff msaa is `Some` — and does nothing
else.  The width/height bounds make the u32→i32 casts in the viewport call
value-preserving; every creatable window satisfies them. -/
theorem config_context_swap_viewport_msaa (opt : Options)
    (hw : opt.width < 2 ^ 31) (hh : opt.height < 2 ^ 31) :
    opt.config_context
      = [Effect.setSwapInterval (if opt.vsync then 1 else 0),
         Effect.viewport 0 0 (opt.width : Int) (opt.height : Int),
         if opt.msaa.isSome then Effect.glEnable GlCapability.multisample
         else Effect.glDisable GlCapability.multisample] := by
  rw [Options.config_context, toI32_of_lt hw, toI32_of_lt hh]
  cases opt.msaa <;> simp

/-- Witness for C4 at a concrete `Options`. -/
theorem config_context_swap_viewport_msaa_witness :
    (⟨1280, 720, "Display Test", false, true, some 16, true⟩ : Options).config_context
      = [Effect.setSwapInterval 1,
         Effect.viewport 0 0 (1280 : Int) (720 : Int),
         Effect.glEnable GlCapability.multisample] := by
  have h := config_context_swap_viewport_msaa
    ⟨1280, 720, "Display Test", false, true, some 16, true⟩
    (by norm_num) (by norm_num)
  simpa using h

/-- Claim C6: `create` requests a window of the given width, height and
title — fullscreen on the primary monitor when `fullscreen` is true,
windowed otherwise — then centers the window on the primary monitor's
video mode at ((vidmode.width - width)/2, (vidmode.height - height)/2) and
centers the cursor at (width/2, height/2).  The bounds (window fits the
monitor, monitor dimensions representable in i32) make the centering
arithmetic exact; see the C9 theorem for what happens outside them. -/
theorem create_requests_and_centers (opt : Options) (debug : Bool)
    (env : GlfwEnv) (monitor : Monitor) (vm : VidMode)
    (hcw : env.createWindowOk = true) (hvm : monitor.vidmode = some vm)
    (hw : opt.width ≤ vm.width) (hh : opt.height ≤ vm.height)
    (hvw : vm.width < 2 ^ 31) (hvh : vm.height < 2 ^ 31) :
    opt.create debug env monitor
      = .ok [Effect.createWindow opt.width opt.height opt.title
               (if opt.fullscreen then WindowMode.FullScreen else WindowMode.Windowed),
             Effect.getVideoMode,
             Effect.setPos (((vm.width - opt.width) / 2 : Nat) : Int)
               (((vm.height - opt.height) / 2 : Nat) : Int),
             Effect.setCursorPos ((opt.width : ℚ) / 2) ((opt.height : ℚ) / 2)] := by
  have hdx : vm.width - opt.width < 2 ^ 31 := lt_of_le_of_lt (Nat.sub_le _ _) hvw
  have hdy : vm.height - opt.height < 2 ^ 31 := lt_of_le_of_lt (Nat.sub_le _ _) hvh
  simp only [Options.create, hcw, if_true, hvm, subU32_of_le debug hw,
    subU32_of_le debug hh, i32div2_toI32_of_lt hdx, i32div2_toI32_of_lt hdy]

/-- Witness for C6: a 1280x720 window on a 1920x1080 monitor is placed at
(320, 180) with the cursor at (640, 360). -/
theorem create_requests_and_centers_witness :
    (⟨1280, 720, "Display Test", false, true, some 16, true⟩ : Options).create
        true ⟨true, some ⟨some ⟨1920, 1080⟩⟩, true⟩ ⟨some ⟨1920, 1080⟩⟩
      = .ok [Effect.createWindow 1280 720 "Display Test" WindowMode.Windowed,
             Effect.getVideoMode,
             Effect.setPos 320 180,
             Effect.setCursorPos 640 360] := by
  have h := create_requests_and_centers
    ⟨1280, 720, "Display Test", false, true, some 16, true⟩ true
    ⟨true, some ⟨some ⟨1920, 1080⟩⟩, true⟩ ⟨some ⟨1920, 1080⟩⟩ ⟨1920, 1080⟩
    rfl rfl (by norm_num) (by norm_num) (by norm_num) (by norm_num)
  simpa [show ((1280 : ℚ) / 2) = 640 by norm_num, show ((720 : ℚ) / 2) = 360 by norm_num]
    using h

/-- Claim C3: on a successful environment, `Display::new` performs, in this
exact order: windowing-library initialization, primary-monitor fetch, the
`config` hints, the `create` calls (window creation, video-mode query,
window centering, cursor centering), enabling all event-polling
categories, making the GL context current, loading the GL function
pointers, and the `config_context` calls. -/
theorem new_performs_steps_in_order (opt : Options) (debug : Bool)
    (env : GlfwEnv) (monitor : Monitor) (vm : VidMode)
    (hinit : env.initOk = true) (hmon : env.primaryMonitor = some monitor)
    (hcw : env.createWindowOk = true) (hvm : monitor.vidmode = some vm)
    (hw : opt.width ≤ vm.width) (hh : opt.height ≤ vm.height) :
    Display.new opt debug env
      = .ok (⟨[]⟩,
          [Effect.glfwInit, Effect.fetchPrimaryMonitor]
          ++ opt.config debug
          ++ [Effect.createWindow opt.width opt.height opt.title
                (if opt.fullscreen then WindowMode.FullScreen else WindowMode.Windowed),
              Effect.getVideoMode,
              Effect.setPos (i32div2 (toI32 (vm.width - opt.width)))
                (i32div2 (toI32 (vm.height - opt.height))),
              Effect.setCursorPos ((opt.width : ℚ) / 2) ((opt.height : ℚ) / 2)]
          ++ [Effect.setAllPolling true, Effect.makeCurrent, Effect.loadGl]
          ++ opt.config_context) := by
  simp only [Display.new, hinit, if_true, hmon, Options.create, hcw, hvm,
    subU32_of_le debug hw, subU32_of_le debug hh]

/-- Witness for C3 at a concrete options/environment pair. -/
theorem new_performs_steps_in_order_witness :
    Display.new (⟨1280, 720, "Display Test", false, true, some 16, true⟩ : Options)
        false ⟨true, some ⟨some ⟨1920, 1080⟩⟩, true⟩
      = .ok (⟨[]⟩,
          [Effect.glfwInit, Effect.fetchPrimaryMonitor]
          ++ (⟨1280, 720, "Display Test", false, true, some 16, true⟩ : Options).config false
          ++ [Effect.createWindow 1280 720 "Display Test" WindowMode.Windowed,
              Effect.getVideoMode,
              Effect.setPos (i32div2 (toI32 (1920 - 1280)))
                (i32div2 (toI32 (1080 - 720))),
              Effect.setCursorPos ((1280 : ℚ) / 2) ((720 : ℚ) / 2)]
          ++ [Effect.setAllPolling true, Effect.makeCurrent, Effect.loadGl]
          ++ (⟨1280, 720, "Display Test", false, true, some 16, true⟩ : Options).config_context) := by
  have h := new_performs_steps_in_order
    ⟨1280, 720, "Display Test", false, true, some 16, true⟩ false
    ⟨true, some ⟨some ⟨1920, 1080⟩⟩, true⟩ ⟨some ⟨1920, 1080⟩⟩ ⟨1920, 1080⟩
    rfl rfl rfl rfl (by norm_num) (by norm_num)
  simpa using h

/-- Claim C2: every failure path of `Display::new` — windowing-library
initialization failure, missing primary monitor, window-creation failure,
missing monitor video mode — is fatal with its descriptive diagnostic
message; and every non-ok outcome of `new` is such a fatal panic drawn
from a fixed message set — there is no recoverable-error return path (in
Rust, `new` returns `Self`, so `.error` models process termination). -/
theorem new_failure_paths_are_fatal (opt : Options) (debug : Bool) (env : GlfwEnv) :
    (env.initOk = false →
        Display.new opt debug env = .error "Could not initialize the GLFW!")
    ∧ (env.initOk = true → env.primaryMonitor = none →
        Display.new opt debug env = .error "Could not get the primary monitor!")
    ∧ (∀ m, env.initOk = true → env.primaryMonitor = some m →
        env.createWindowOk = false →
        Display.new opt debug env = .error "Could not create the window!")
    ∧ (∀ m, env.initOk = true → env.primaryMonitor = some m →
        env.createWindowOk = true → m.vidmode = none →
        Display.new opt debug env = .error "Could not get the vidmode of the monitor!")
    ∧ (∀ msg, Display.new opt debug env = .error msg →
        msg ∈ ["Could not initialize the GLFW!",
               "Could not get the primary monitor!",
               "Could not create the window!",
               "Could not get the vidmode of the monitor!",
               "attempt to subtract with overflow"]) := by
  refine ⟨?_, ?_, ?_, ?_, ?_⟩
  · intro h; simp [Display.new, h]
  · intro h1 h2; simp [Display.new, h1, h2]
  · intro m h1 h2 h3; simp [Display.new, Options.create, h1, h2, h3]
  · intro m h1 h2 h3 h4; simp [Display.new, Options.create, h1, h2, h3, h4]
  · intro msg h
    by_cases h1 : env.initOk
    · cases hm : env.primaryMonitor with
      | none => simp [Display.new, h1, hm] at h; subst h; decide
      | some m =>
        by_cases h2 : m.vidmode = none
        · by_cases h3 : env.createWindowOk
          · simp [Display.new, Options.create, h1, hm, h2, h3] at h; subst h; decide
          · simp [Display.new, Options.create, h1, hm, h3] at h
            subst h; decide
        · cases hv : m.vidmode with
          | none => exact absurd hv h2
          | some vm =>
            by_cases h3 : env.createWindowOk
            · cases hx : subU32 debug vm.width opt.width with
              | error e =>
                have he := subU32_error_msg hx
                simp [Display.new, Options.create, h1, hm, h2, h3, hv, hx] at h
                subst he; subst h; decide
              | ok dx =>
                cases hy : subU32 debug vm.height opt.height with
                | error e =>
                  have he := subU32_error_msg hy
                  simp [Display.new, Options.create, h1, hm, h2, h3, hv, hx, hy] at h
                  subst he; subst h; decide
                | ok dy =>
                  simp [Display.new, Options.create, h1, hm, h2, h3, hv, hx, hy] at h
            · simp [Display.new, Options.create, h1, hm, h3] at h
              subst h; decide
    · simp [Display.new, h1] at h
      subst h; decide

/-- Witness for C2: each of the four failure conditions, at concrete
inputs, yields its diagnostic panic. -/
theorem new_failure_paths_are_fatal_witness :
    Display.new (⟨1280, 720, "t", false, true, none, true⟩ : Options) true
        ⟨false, none, false⟩ = .error "Could not initialize the GLFW!"
    ∧ Display.new (⟨1280, 720, "t", false, true, none, true⟩ : Options) true
        ⟨true, none, true⟩ = .error "Could not get the primary monitor!"
    ∧ Display.new (⟨1280, 720, "t", false, true, none, true⟩ : Options) true
        ⟨true, some ⟨some ⟨1920, 1080⟩⟩, false⟩ = .error "Could not create the window!"
    ∧ Display.new (⟨1280, 720, "t", false, true, none, true⟩ : Options) true
        ⟨true, some ⟨none⟩, true⟩ = .error "Could not get the vidmode of the monitor!" :=
  ⟨(new_failure_paths_are_fatal ⟨1280, 720, "t", false, true, none, true⟩ true
      ⟨false, none, false⟩).1 rfl,
   (new_failure_paths_are_fatal ⟨1280, 720, "t", false, true, none, true⟩ true
      ⟨true, none, true⟩).2.1 rfl rfl,
   (new_failure_paths_are_fatal ⟨1280, 720, "t", false, true, none, true⟩ true
      ⟨true, some ⟨some ⟨1920, 1080⟩⟩, false⟩).2.2.1 ⟨some ⟨1920, 1080⟩⟩ rfl rfl rfl,
   (new_failure_paths_are_fatal ⟨1280, 720, "t", false, true, none, true⟩ true
      ⟨true, some ⟨none⟩, true⟩).2.2.2.1 ⟨none⟩ rfl rfl rfl rfl⟩

/-- Claim C9: the centering arithmetic computes `vidmode.width - width`
and `vidmode.height - height` as unsigned 32-bit subtractions before the
signed cast; when a dimension exceeds the monitor's video mode the
subtraction underflows — panicking in debug builds, wrapping modulo 2^32
in release builds — and it is well-defined (create succeeds in either
build) under the precondition that the window fits the video mode. -/
theorem create_centering_underflow (opt : Options) (env : GlfwEnv)
    (monitor : Monitor) (vm : VidMode)
    (hcw : env.createWindowOk = true) (hvm : monitor.vidmode = some vm) :
    ((vm.width < opt.width ∨ vm.height < opt.height) →
        opt.create true env monitor = .error "attempt to subtract with overflow")
    ∧ (vm.width < opt.width → opt.height ≤ vm.height →
        opt.create false env monitor
          = .ok [Effect.createWindow opt.width opt.height opt.title
                   (if opt.fullscreen then WindowMode.FullScreen else WindowMode.Windowed),
                 Effect.getVideoMode,
                 Effect.setPos
                   (i32div2 (toI32 ((vm.width + 2 ^ 32 - opt.width) % 2 ^ 32)))
                   (i32div2 (toI32 (vm.height - opt.height))),
                 Effect.setCursorPos ((opt.width : ℚ) / 2) ((opt.height : ℚ) / 2)])
    ∧ (opt.width ≤ vm.width → opt.height ≤ vm.height →
        ∀ debug, ∃ t, opt.create debug env monitor = .ok t) := by
  refine ⟨?_, ?_, ?_⟩
  · intro h
    by_cases hx : opt.width ≤ vm.width
    · have hy : ¬ opt.height ≤ vm.height := by
        rcases h with h | h
        · exact absurd hx (not_le.mpr h)
        · exact not_le.mpr h
      simp [Options.create, hcw, hvm, subU32, hx, hy]
    · simp [Options.create, hcw, hvm, subU32, hx]
  · intro h1 h2
    have hx : ¬ opt.width ≤ vm.width := not_le.mpr h1
    simp [Options.create, hcw, hvm, subU32, hx, h2]
  · intro h1 h2 debug
    refine ⟨[Effect.createWindow opt.width opt.height opt.title
        (if opt.fullscreen then WindowMode.FullScreen else WindowMode.Windowed),
      Effect.getVideoMode,
      Effect.setPos (i32div2 (toI32 (vm.width - opt.width)))
        (i32div2 (toI32 (vm.height - opt.height))),
      Effect.setCursorPos ((opt.width : ℚ) / 2) ((opt.height : ℚ) / 2)], ?_⟩
    simp [Options.create, hcw, hvm, subU32_of_le debug h1, subU32_of_le debug h2]

/-- Witness for C9: a 900-wide window on an 800-wide video mode panics in
a debug build and, in a release build, wraps to the position x = -50
(from (800 - 900) mod 2^32 = 4294967196, reinterpreted as i32 = -100,
halved). -/
theorem create_centering_underflow_witness :
    (⟨900, 600, "w", false, true, none, false⟩ : Options).create true
        ⟨true, some ⟨some ⟨800, 600⟩⟩, true⟩ ⟨some ⟨800, 600⟩⟩
      = .error "attempt to subtract with overflow"
    ∧ (⟨900, 600, "w", false, true, none, false⟩ : Options).create false
        ⟨true, some ⟨some ⟨800, 600⟩⟩, true⟩ ⟨some ⟨800, 600⟩⟩
      = .ok [Effect.createWindow 900 600 "w" WindowMode.Windowed,
             Effect.getVideoMode,
             Effect.setPos (-50) 0,
             Effect.setCursorPos 450 300] := by
  have h := create_centering_underflow ⟨900, 600, "w", false, true, none, false⟩
    ⟨true, some ⟨some ⟨800, 600⟩⟩, true⟩ ⟨some ⟨800, 600⟩⟩ ⟨800, 600⟩ rfl rfl
  exact ⟨h.1 (Or.inl (by norm_num)),
    (h.2.1 (by norm_num) (by norm_num)).trans
      (congrArg Except.ok (by norm_num [i32div2, toI32]))⟩

/-- Claim C10: nothing validates the msaa field: for every value of msaa —
including zero and non-powers-of-two — `config` passes it through
unchanged as the `Samples` window hint, the rest of the pipeline never
reads it for a check (`create` is literally unchanged by it), and whether
`Display::new` succeeds does not depend on it. -/
theorem msaa_passed_through_unvalidated (opt : Options) (debug : Bool)
    (env : GlfwEnv) (m : Option Nat) :
    Effect.windowHint (WindowHint.Samples m)
        ∈ ({ opt with msaa := m } : Options).config debug
    ∧ ({ opt with msaa := m } : Options).create debug = opt.create debug
    ∧ ((∃ p, Display.new { opt with msaa := m } debug env = .ok p)
        ↔ (∃ p, Display.new opt debug env = .ok p)) := by
  refine ⟨?_, ?_, ?_⟩
  · cases debug <;> simp [Options.config]
  · funext e mon
    rfl
  · by_cases h1 : env.initOk
    · cases hm : env.primaryMonitor with
      | none => simp [Display.new, h1, hm]
      | some mon =>
        cases hcr : opt.create debug env mon with
        | error e =>
          have hcr2 : ({ opt with msaa := m } : Options).create debug env mon
              = .error e := hcr
          simp [Display.new, h1, hm, hcr, hcr2]
        | ok t =>
          have hcr2 : ({ opt with msaa := m } : Options).create debug env mon
              = .ok t := hcr
          simp [Display.new, h1, hm, hcr, hcr2]
    · simp [Display.new, h1]
